import Mathlib

/-!
# Verification of `build_scripts/coolors_parser.py`

Shallow embedding of the two core functions of the coolors.co palette
converter (`parse_coolors_xml` and `create_colormap_json`), followed by
theorems settling the spec claims.

Modelling choices:

* XML is abstracted at the point of `xml.etree.ElementTree.fromstring`:
  the input is either a well-formed element tree (`XmlInput.wellFormed`)
  or not well-formed markup (`XmlInput.malformed`), in which case the
  library raises `ET.ParseError` carrying a diagnostic.  `findall('color')`
  on the root selects the direct children whose tag is `color`, in
  document order; `elem.get(key)` returns the attribute value, or `None`
  when absent.  Well-formed XML has at most one attribute per name, so
  attributes are an association list queried by first match.
* Python exceptions are the error type `PyError`: the exception class
  plus its message.  `int(None)` raises `TypeError`, `int("blue")` raises
  `ValueError` with the message built from the offending literal, and
  `create_colormap_json` raises `ValueError("No colors provided")` on an
  empty list.
* Python's `int()` on a string is modelled faithfully as base-10 parsing
  after stripping surrounding whitespace, with an optional single sign and
  underscores allowed only between digits.
* Gradient positions are modelled as exact rationals: the real-valued
  division `i / (N - 1)` is rational division, and Python's
  `round(x, 4)` is rounding to a multiple of `1/10^4` with ties to even.
-/

/-- An XML element: tag, attributes (an association list; well-formed XML
has at most one attribute per name), and child elements. -/
inductive Element where
  | mk (tag : String) (attrib : List (String × String)) (children : List Element)

/-- The element's tag. -/
def Element.tag : Element → String
  | .mk t _ _ => t

/-- The element's attribute list. -/
def Element.attrib : Element → List (String × String)
  | .mk _ a _ => a

/-- The element's direct children. -/
def Element.children : Element → List Element
  | .mk _ _ c => c

/-- `elem.get(key)`: the value of attribute `key`, or `None` when absent. -/
def Element.get (e : Element) (key : String) : Option String :=
  (e.attrib.find? (fun p => p.1 == key)).map (fun p => p.2)

/-- The outcome of `ET.fromstring` on the raw input text: either the root
element of a well-formed document, or a failure on markup that is not
well-formed, carrying the underlying parse diagnostic. -/
inductive XmlInput where
  | wellFormed (root : Element)
  | malformed (diag : String)

/-- The class of a Python exception, as seen by an `except` clause. -/
inductive PyClass where
  | parseError
  | valueError
  | typeError
deriving DecidableEq, Repr

/-- A Python exception: its class together with its message. -/
inductive PyError where
  | parseError (msg : String)
  | valueError (msg : String)
  | typeError (msg : String)
deriving DecidableEq, Repr

/-- The exception class of an error. -/
def PyError.cls : PyError → PyClass
  | .parseError _ => .parseError
  | .valueError _ => .valueError
  | .typeError _ => .typeError

/-- The exception message of an error. -/
def PyError.msg : PyError → String
  | .parseError m => m
  | .valueError m => m
  | .typeError m => m

/-- The exception class of a computation's outcome, when it failed. -/
def errClass {α : Type} : Except PyError α → Option PyClass
  | .error e => some e.cls
  | .ok _ => none

/-- Digit run of a Python base-10 integer literal after the first digit:
further digits, with single underscores allowed only between digits. -/
def pyDigitsAux (acc : Nat) : List Char → Option Nat
  | [] => some acc
  | '_' :: c :: rest =>
      if c.isDigit then pyDigitsAux (acc * 10 + (c.toNat - 48)) rest else none
  | c :: rest =>
      if c.isDigit then pyDigitsAux (acc * 10 + (c.toNat - 48)) rest else none

/-- Digit run of a Python base-10 integer literal: at least one digit,
underscores only between digits. -/
def pyDigits : List Char → Option Nat
  | [] => none
  | c :: rest => if c.isDigit then pyDigitsAux (c.toNat - 48) rest else none

/-- The value of a Python base-10 integer literal: surrounding whitespace
stripped, an optional single sign, then digits. -/
def pyIntLit (s : String) : Option Int :=
  let cs := ((s.toList.dropWhile Char.isWhitespace).reverse.dropWhile
    Char.isWhitespace).reverse
  match cs with
  | '+' :: rest => (pyDigits rest).map (fun n => (n : Int))
  | '-' :: rest => (pyDigits rest).map (fun n => -(n : Int))
  | rest => (pyDigits rest).map (fun n => (n : Int))

/-- Python `int(...)` applied to the result of `elem.get(attr)`:
`TypeError` when the attribute is absent (`int(None)`), `ValueError` when
the text is not a valid base-10 integer literal. -/
def pyInt : Option String → Except PyError Int
  | none => .error (.typeError
      "int() argument must be a string, a bytes-like object or a real number, not 'NoneType'")
  | some s =>
    match pyIntLit s with
    | some v => .ok v
    | none => .error (.valueError
        ("invalid literal for int() with base 10: '" ++ s ++ "'"))

/-- One color record, as built by `parse_coolors_xml` for each `color`
element: `name` and `hex` are the attribute values passed through as-is
(`None` when absent), `r`, `g`, `b` the parsed integers. -/
structure ColorRecord where
  name : Option String
  hex : Option String
  r : Int
  g : Int
  b : Int
deriving DecidableEq, Repr

instance : Inhabited ColorRecord := ⟨⟨none, none, 0, 0, 0⟩⟩

/-- The dict built for one `color` element.  Python evaluates the dict
literal's values in order, so the first failing `int(...)` (in the order
`r`, `g`, `b`) raises. -/
def recordOfElem (e : Element) : Except PyError ColorRecord := do
  let r ← pyInt (e.get "r")
  let g ← pyInt (e.get "g")
  let b ← pyInt (e.get "b")
  .ok { name := e.get "name", hex := e.get "hex", r := r, g := g, b := b }

/-- `root.findall('color')`: the direct children of the root whose tag is
`color`, in document order. -/
def colorChildren (root : Element) : List Element :=
  root.children.filter (fun e => e.tag == "color")

/-- `parse_coolors_xml`: parse the text (a `ParseError` on markup that is
not well-formed), then build one record per direct `color` child of the
root, in document order, failing fast on the first bad record. -/
def parse_coolors_xml (input : XmlInput) : Except PyError (List ColorRecord) :=
  match input with
  | .malformed diag => .error (.parseError diag)
  | .wellFormed root => (colorChildren root).mapM recordOfElem

/-- An r, g, b triple as it appears in a gradient stop. -/
structure RGB where
  r : Int
  g : Int
  b : Int
deriving DecidableEq, Repr

/-- One gradient stop: a position in `[0, 1]` and a color triple. -/
structure GradientStop where
  position : ℚ
  color : RGB
deriving DecidableEq, Repr

instance : Inhabited GradientStop := ⟨⟨0, ⟨0, 0, 0⟩⟩⟩

/-- The output colormap: a name (a Python string or `None`) and the
ordered gradient stops. -/
structure Colormap where
  name : Option String
  stops : List GradientStop
deriving DecidableEq, Repr

/-- Python `str` interpolation of a possibly-`None` value, as in an
f-string: `None` renders as the text `"None"`. -/
def pyStr : Option String → String
  | none => "None"
  | some s => s

/-- Rounding to the nearest integer with ties to even, the rule of
Python's `round`. -/
def roundHalfEven (q : ℚ) : ℤ :=
  if q - ⌊q⌋ < 1 / 2 then ⌊q⌋
  else if 1 / 2 < q - ⌊q⌋ then ⌊q⌋ + 1
  else if ⌊q⌋ % 2 = 0 then ⌊q⌋ else ⌊q⌋ + 1

/-- Python's `round(x, 4)`: round to the nearest multiple of `1/10^4`. -/
def round4 (q : ℚ) : ℚ := (roundHalfEven (q * 10000) : ℚ) / 10000

/-- The name derivation of `create_colormap_json` when the caller gives no
override: with two or more colors, an f-string of the first and last
color's names separated by one space; with one color, that color's `name`
field verbatim.  `colors[0]` and `colors[-1]` are only reached on a
non-empty list, guarded by the emptiness check. -/
def deriveName (colors : List ColorRecord) : Option String :=
  if 2 ≤ colors.length then
    some (pyStr (colors.headI.name) ++ " " ++
      pyStr ((colors.getLast?.getD default).name))
  else colors.headI.name

/-- The stop list of `create_colormap_json`: the loop
`for i, color in enumerate(colors)`, each stop at `i / (num_colors - 1)`
(or `0.0` for a single color) rounded to 4 digits, with the color triple
copied verbatim. -/
def stopsOf (colors : List ColorRecord) : List GradientStop :=
  colors.enum.map (fun ic =>
    let position : ℚ :=
      if 1 < colors.length then (ic.1 : ℚ) / ((colors.length : ℚ) - 1) else 0
    { position := round4 position
      color := ⟨ic.2.r, ic.2.g, ic.2.b⟩ })

/-- `create_colormap_json`: reject an empty color list, derive the name
when no override is given, and emit one evenly spaced stop per color,
positions rounded to 4 decimal digits, colors copied verbatim. -/
def create_colormap_json (colors : List ColorRecord)
    (name : Option String) : Except PyError Colormap :=
  if colors = [] then .error (.valueError "No colors provided")
  else
    let nm : Option String :=
      match name with
      | some n => some n
      | none => deriveName colors
    .ok { name := nm, stops := stopsOf colors }

/-- The composed pipeline: Extractor then Builder, as `main` runs them. -/
def pipeline (input : XmlInput) (name : Option String) :
    Except PyError Colormap := do
  let colors ← parse_coolors_xml input
  create_colormap_json colors name

/-! ## Concrete inputs used by witnesses and counterexamples -/

/-- The three-color palette of the spec's concrete scenario. -/
def docThree : Element :=
  .mk "palette" []
    [ .mk "color" [("name", "A"), ("hex", "#FF0000"), ("r", "255"), ("g", "0"), ("b", "0")] []
    , .mk "color" [("name", "B"), ("hex", "#00FF00"), ("r", "0"), ("g", "255"), ("b", "0")] []
    , .mk "color" [("name", "C"), ("hex", "#0000FF"), ("r", "0"), ("g", "0"), ("b", "255")] [] ]

/-- A palette whose only color has `r="300"`, an out-of-range channel. -/
def docOutOfRange : Element :=
  .mk "palette" [] [.mk "color" [("r", "300"), ("g", "0"), ("b", "0")] []]

/-- The `color` element whose `r` attribute is the non-integer `zz`. -/
def elemBadR : Element :=
  .mk "color" [("r", "zz"), ("g", "0"), ("b", "0")] []

/-- A palette whose only color has the non-integer `r="zz"`. -/
def docBadR : Element := .mk "palette" [] [elemBadR]

/-- A palette whose only color has the non-integer `g="zz"` (and a valid
`r`), so the failing attribute differs from `docBadR`. -/
def docBadG : Element :=
  .mk "palette" [] [.mk "color" [("r", "0"), ("g", "zz"), ("b", "0")] []]

/-- A palette whose only color is missing the `r` attribute. -/
def docMissingR : Element :=
  .mk "palette" [] [.mk "color" [("g", "0"), ("b", "0")] []]

/-- A palette with no `color` children at all (one unrelated child). -/
def docNoColors : Element :=
  .mk "palette" [] [.mk "note" [("text", "empty")] []]

/-! ## Helper lemmas -/

lemma round4_zero : round4 0 = 0 := by
  norm_num [round4, roundHalfEven]

lemma round4_one : round4 1 = 1 := by
  norm_num [round4, roundHalfEven]

lemma roundHalfEven_mono : Monotone roundHalfEven := by
  intro a b hab
  have hf : ⌊a⌋ ≤ ⌊b⌋ := Int.floor_mono hab
  by_cases heq : ⌊a⌋ = ⌊b⌋
  · have hfr : a - (⌊b⌋ : ℚ) ≤ b - (⌊b⌋ : ℚ) := by linarith
    unfold roundHalfEven
    rw [heq]
    split_ifs <;> first | omega | (exfalso; linarith)
  · have hlt : ⌊a⌋ < ⌊b⌋ := lt_of_le_of_ne hf heq
    unfold roundHalfEven
    split_ifs <;> omega

lemma round4_mono {a b : ℚ} (hab : a ≤ b) : round4 a ≤ round4 b := by
  unfold round4
  have h : roundHalfEven (a * 10000) ≤ roundHalfEven (b * 10000) :=
    roundHalfEven_mono (by linarith)
  have h' : ((roundHalfEven (a * 10000) : ℤ) : ℚ) ≤ ((roundHalfEven (b * 10000) : ℤ) : ℚ) := by
    exact_mod_cast h
  gcongr

lemma create_nil (nm : Option String) :
    create_colormap_json [] nm = .error (.valueError "No colors provided") := rfl

lemma create_eq_some (colors : List ColorRecord) (n : String)
    (hc : colors ≠ []) :
    create_colormap_json colors (some n) =
      .ok { name := some n, stops := stopsOf colors } := by
  rw [create_colormap_json.eq_def, if_neg hc]

lemma create_eq_none (colors : List ColorRecord) (hc : colors ≠ []) :
    create_colormap_json colors none =
      .ok { name := deriveName colors, stops := stopsOf colors } := by
  rw [create_colormap_json.eq_def, if_neg hc]

lemma create_ok (colors : List ColorRecord) (nm : Option String) (m : Colormap)
    (hok : create_colormap_json colors nm = .ok m) :
    colors ≠ [] ∧ m.stops = stopsOf colors := by
  by_cases hc : colors = []
  · subst hc
    rw [create_nil] at hok
    exact absurd hok (by simp)
  · refine ⟨hc, ?_⟩
    cases nm with
    | some n =>
        rw [create_eq_some colors n hc] at hok
        rw [← Except.ok.inj hok]
    | none =>
        rw [create_eq_none colors hc] at hok
        rw [← Except.ok.inj hok]

lemma stopsOf_length (colors : List ColorRecord) :
    (stopsOf colors).length = colors.length := by
  simp [stopsOf]

lemma stopsOf_get (colors : List ColorRecord) (i : ℕ) (hi : i < colors.length) :
    (stopsOf colors)[i]? = some
      { position := round4 (if 1 < colors.length then
            (i : ℚ) / ((colors.length : ℚ) - 1) else 0)
        color := ⟨(colors.get ⟨i, hi⟩).r, (colors.get ⟨i, hi⟩).g,
          (colors.get ⟨i, hi⟩).b⟩ } := by
  have hi' : i < (stopsOf colors).length := by rwa [stopsOf_length]
  rw [List.getElem?_eq_getElem hi']
  unfold stopsOf
  congr 1
  rw [List.getElem_map, List.getElem_enum]
  simp [List.get_eq_getElem]

lemma except_ok_bind {α β : Type} (a : α) (f : α → Except PyError β) :
    (Except.ok a >>= f) = f a := rfl

lemma except_error_bind {α β : Type} (e : PyError) (f : α → Except PyError β) :
    ((Except.error e : Except PyError α) >>= f) = .error e := rfl

lemma except_pure (a : List ColorRecord) :
    (pure a : Except PyError (List ColorRecord)) = .ok a := rfl

lemma mapM_of_forall₂ {es : List Element} {cs : List ColorRecord}
    (h : List.Forall₂ (fun e c => recordOfElem e = .ok c) es cs) :
    es.mapM recordOfElem = .ok cs := by
  induction h with
  | nil => rfl
  | cons h1 _ ih =>
      rw [List.mapM_cons, h1, except_ok_bind, ih, except_ok_bind]
      rfl

lemma mapM_ok_mem {es : List Element} {cs : List ColorRecord}
    (h : es.mapM recordOfElem = .ok cs) :
    ∀ e ∈ es, ∃ c, recordOfElem e = .ok c := by
  induction es generalizing cs with
  | nil => simp
  | cons a as ih =>
      rw [List.mapM_cons] at h
      cases ha : recordOfElem a with
      | error err =>
          rw [ha, except_error_bind] at h
          exact absurd h (by simp)
      | ok c =>
          rw [ha, except_ok_bind] at h
          cases has : as.mapM recordOfElem with
          | error err =>
              rw [has, except_error_bind] at h
              exact absurd h (by simp)
          | ok tail =>
              intro e he
              rcases List.mem_cons.mp he with rfl | hmem
              · exact ⟨c, ha⟩
              · exact ih has e hmem

lemma mapM_error_mem {es : List Element} {err : PyError}
    (h : es.mapM recordOfElem = .error err) :
    ∃ e ∈ es, recordOfElem e = .error err := by
  induction es with
  | nil =>
      rw [List.mapM_nil] at h
      exact absurd h (by simp [except_pure])
  | cons a as ih =>
      rw [List.mapM_cons] at h
      cases ha : recordOfElem a with
      | error e0 =>
          rw [ha, except_error_bind] at h
          exact ⟨a, List.mem_cons_self a as, by rw [ha, Except.error.inj h]⟩
      | ok c =>
          rw [ha, except_ok_bind] at h
          cases has : as.mapM recordOfElem with
          | error e0 =>
              rw [has, except_error_bind] at h
              obtain ⟨e, hmem, he⟩ := ih (by rw [has, Except.error.inj h])
              exact ⟨e, List.mem_cons_of_mem a hmem, he⟩
          | ok tail =>
              rw [has, except_ok_bind] at h
              exact absurd h (by simp [except_pure])

lemma pyInt_none :
    pyInt none = .error (.typeError
      "int() argument must be a string, a bytes-like object or a real number, not 'NoneType'") :=
  rfl

lemma pyInt_bad (s : String) (hl : pyIntLit s = none) :
    pyInt (some s) = .error (.valueError
      ("invalid literal for int() with base 10: '" ++ s ++ "'")) := by
  simp only [pyInt]
  rw [hl]

lemma pyInt_good (s : String) (v : Int) (hl : pyIntLit s = some v) :
    pyInt (some s) = .ok v := by
  simp only [pyInt]
  rw [hl]

lemma pyInt_error_cls (o : Option String) (err : PyError)
    (h : pyInt o = .error err) :
    err.cls = .valueError ∨ err.cls = .typeError := by
  cases o with
  | none =>
      rw [pyInt_none] at h
      right
      rw [← Except.error.inj h]
      rfl
  | some s =>
      cases hl : pyIntLit s with
      | none =>
          rw [pyInt_bad s hl] at h
          left
          rw [← Except.error.inj h]
          rfl
      | some v =>
          rw [pyInt_good s v hl] at h
          exact absurd h (by simp)

lemma recordOfElem_error_cls (e : Element) (err : PyError)
    (h : recordOfElem e = .error err) :
    err.cls = .valueError ∨ err.cls = .typeError := by
  unfold recordOfElem at h
  cases hr : pyInt (e.get "r") with
  | error e1 =>
      rw [hr, except_error_bind] at h
      exact (Except.error.inj h) ▸ pyInt_error_cls _ e1 hr
  | ok rv =>
      rw [hr, except_ok_bind] at h
      cases hg : pyInt (e.get "g") with
      | error e1 =>
          rw [hg, except_error_bind] at h
          exact (Except.error.inj h) ▸ pyInt_error_cls _ e1 hg
      | ok gv =>
          rw [hg, except_ok_bind] at h
          cases hb : pyInt (e.get "b") with
          | error e1 =>
              rw [hb, except_error_bind] at h
              exact (Except.error.inj h) ▸ pyInt_error_cls _ e1 hb
          | ok bv =>
              rw [hb, except_ok_bind] at h
              exact absurd h (by simp)

lemma deriveName_two (c d : ColorRecord) (mid : List ColorRecord) :
    deriveName (c :: mid ++ [d]) = some (pyStr c.name ++ " " ++ pyStr d.name) := by
  have hl : (c :: mid ++ [d]).getLast? = some d := List.getLast?_concat _
  unfold deriveName
  rw [if_pos (by simp), hl]
  rfl

lemma deriveName_one (c : ColorRecord) : deriveName [c] = c.name := by
  unfold deriveName
  rw [if_neg (by simp)]
  rfl

/-! ## Claim theorems -/

/-- Claim C1: on the three-color palette A/B/C (with the given hex and RGB
attributes) and no name override, the composed pipeline (Extractor then
Builder) produces exactly the colormap named "A C" with stops at positions
0, 0.5 and 1 carrying the colors (255,0,0), (0,255,0) and (0,0,255). -/
theorem claim_C1 :
    pipeline (.wellFormed docThree) none =
      .ok { name := some "A C"
            stops := [ { position := 0, color := ⟨255, 0, 0⟩ }
                     , { position := 1/2, color := ⟨0, 255, 0⟩ }
                     , { position := 1, color := ⟨0, 0, 255⟩ } ] } := by
  have hp : parse_coolors_xml (.wellFormed docThree) = .ok
      [ ⟨some "A", some "#FF0000", 255, 0, 0⟩
      , ⟨some "B", some "#00FF00", 0, 255, 0⟩
      , ⟨some "C", some "#0000FF", 0, 0, 255⟩ ] := rfl
  unfold pipeline
  rw [hp, except_ok_bind, create_colormap_json.eq_def, if_neg (by simp)]
  have hd : deriveName
      [ (⟨some "A", some "#FF0000", 255, 0, 0⟩ : ColorRecord)
      , ⟨some "B", some "#00FF00", 0, 255, 0⟩
      , ⟨some "C", some "#0000FF", 0, 0, 255⟩ ] = some "A C" :=
    deriveName_two ⟨some "A", some "#FF0000", 255, 0, 0⟩
      ⟨some "C", some "#0000FF", 0, 0, 255⟩ [⟨some "B", some "#00FF00", 0, 255, 0⟩]
  rw [hd]
  have hs : stopsOf
      [ (⟨some "A", some "#FF0000", 255, 0, 0⟩ : ColorRecord)
      , ⟨some "B", some "#00FF00", 0, 255, 0⟩
      , ⟨some "C", some "#0000FF", 0, 0, 255⟩ ] =
      [ { position := 0, color := ⟨255, 0, 0⟩ }
      , { position := 1/2, color := ⟨0, 255, 0⟩ }
      , { position := 1, color := ⟨0, 0, 255⟩ } ] := by
    unfold stopsOf
    simp only [List.enum, List.enumFrom, List.map]
    norm_num [round4, roundHalfEven]
  rw [hs]

lemma stopsOf_pos_zero (colors : List ColorRecord) :
    round4 (if 1 < colors.length then
      ((0 : ℕ) : ℚ) / ((colors.length : ℚ) - 1) else 0) = 0 := by
  split_ifs with h
  · rw [Nat.cast_zero, zero_div, round4_zero]
  · exact round4_zero

/-- Claim C2: for every non-empty color list accepted by the Builder, the
stop positions are non-decreasing in the index; with two or more colors
the first stop sits exactly at 0 and the last exactly at 1; with exactly
one color the single stop sits at 0. -/
theorem claim_C2 (colors : List ColorRecord) (m : Colormap)
    (hok : create_colormap_json colors none = .ok m) :
    (∀ (i j : ℕ) (p q : GradientStop), i ≤ j →
        m.stops[i]? = some p → m.stops[j]? = some q → p.position ≤ q.position) ∧
    (2 ≤ colors.length →
        m.stops.head?.map GradientStop.position = some 0 ∧
        m.stops.getLast?.map GradientStop.position = some 1) ∧
    (colors.length = 1 → m.stops.map GradientStop.position = [0]) := by
  obtain ⟨hc, hst⟩ := create_ok colors none m hok
  refine ⟨?_, ?_, ?_⟩
  · intro i j p q hij hp hq
    rw [hst] at hp hq
    have hj : j < colors.length := by
      by_contra hge
      rw [List.getElem?_eq_none (by rw [stopsOf_length]; omega)] at hq
      simp at hq
    have hi : i < colors.length := lt_of_le_of_lt hij hj
    rw [stopsOf_get colors i hi] at hp
    rw [stopsOf_get colors j hj] at hq
    obtain rfl := Option.some_inj.mp hp.symm
    obtain rfl := Option.some_inj.mp hq.symm
    by_cases h1 : 1 < colors.length
    · simp only [if_pos h1]
      apply round4_mono
      have hL : (2 : ℚ) ≤ (colors.length : ℚ) := by exact_mod_cast h1
      have hden : (0 : ℚ) < (colors.length : ℚ) - 1 := by linarith
      have hnum : (i : ℚ) ≤ (j : ℚ) := by exact_mod_cast hij
      gcongr
    · simp only [if_neg h1]
      exact le_rfl
  · intro h2
    constructor
    · rw [hst, List.head?_eq_getElem?]
      rw [stopsOf_get colors 0 (by omega)]
      simp [stopsOf_pos_zero, round4_zero]
    · rw [hst, List.getLast?_eq_getElem?, stopsOf_length]
      rw [stopsOf_get colors (colors.length - 1) (by omega)]
      have hcast : ((colors.length - 1 : ℕ) : ℚ) = (colors.length : ℚ) - 1 := by
        have : 1 ≤ colors.length := by omega
        push_cast [this]
        ring
      have hne : (colors.length : ℚ) - 1 ≠ 0 := by
        have : (2 : ℚ) ≤ (colors.length : ℚ) := by exact_mod_cast h2
        intro hz
        linarith
      simp only [if_pos (by omega : 1 < colors.length), hcast, div_self hne]
      simp [round4_one]
  · intro h1
    rw [hst]
    obtain ⟨c, rfl⟩ := List.length_eq_one.mp h1
    simp [stopsOf, List.enum, List.enumFrom, round4_zero]

/-- Claim C3: for every non-empty color list and any name override, the
Builder returns one stop per input record, in input order, whose color
triple is the record's (r, g, b) copied verbatim. -/
theorem claim_C3 (colors : List ColorRecord) (nm : Option String) (m : Colormap)
    (hok : create_colormap_json colors nm = .ok m) :
    m.stops.length = colors.length ∧
    ∀ (i : ℕ) (hi : i < colors.length),
      (m.stops[i]?).map GradientStop.color =
        some ⟨(colors.get ⟨i, hi⟩).r, (colors.get ⟨i, hi⟩).g,
          (colors.get ⟨i, hi⟩).b⟩ := by
  obtain ⟨hc, hst⟩ := create_ok colors nm m hok
  constructor
  · rw [hst]
    exact stopsOf_length colors
  · intro i hi
    rw [hst, stopsOf_get colors i hi]
    rfl

/-- Claim C4: for a well-formed document, the Extractor produces one
record per direct `color` child of the root, in document order (other
elements are ignored by the `color` filter), and each record passes the
`name` and `hex` attributes through as-is (null when absent) while `r`,
`g`, `b` are the attribute texts parsed as base-10 integers. -/
theorem claim_C4 (root : Element) (recs : List ColorRecord)
    (h : List.Forall₂ (fun e c => recordOfElem e = .ok c) (colorChildren root) recs) :
    parse_coolors_xml (.wellFormed root) = .ok recs ∧
    ∀ (e : Element) (c : ColorRecord), recordOfElem e = .ok c →
      c.name = e.get "name" ∧ c.hex = e.get "hex" ∧
      pyInt (e.get "r") = .ok c.r ∧ pyInt (e.get "g") = .ok c.g ∧
      pyInt (e.get "b") = .ok c.b := by
  constructor
  · exact mapM_of_forall₂ h
  · intro e c hec
    unfold recordOfElem at hec
    cases hr : pyInt (e.get "r") with
    | error e1 =>
        rw [hr, except_error_bind] at hec
        exact absurd hec (by simp)
    | ok rv =>
        rw [hr, except_ok_bind] at hec
        cases hg : pyInt (e.get "g") with
        | error e1 =>
            rw [hg, except_error_bind] at hec
            exact absurd hec (by simp)
        | ok gv =>
            rw [hg, except_ok_bind] at hec
            cases hb : pyInt (e.get "b") with
            | error e1 =>
                rw [hb, except_error_bind] at hec
                exact absurd hec (by simp)
            | ok bv =>
                rw [hb, except_ok_bind] at hec
                obtain rfl := Except.ok.inj hec
                exact ⟨rfl, rfl, rfl, rfl, rfl⟩

/-- Witness for C4 on the concrete three-color document. -/
theorem claim_C4_witness :
    parse_coolors_xml (.wellFormed docThree) = .ok
      [ ⟨some "A", some "#FF0000", 255, 0, 0⟩
      , ⟨some "B", some "#00FF00", 0, 255, 0⟩
      , ⟨some "C", some "#0000FF", 0, 0, 255⟩ ] :=
  (claim_C4 docThree _
    (List.Forall₂.cons rfl (List.Forall₂.cons rfl
      (List.Forall₂.cons rfl List.Forall₂.nil)))).1

/-- Claim C5: an explicit override always becomes the colormap name; with
no override and one color the name is that color's name verbatim; with no
override and two or more colors it is the first color's name, one space,
and the last color's name. -/
theorem claim_C5 (colors : List ColorRecord) (hc : colors ≠ []) :
    (∀ n : String,
      (create_colormap_json colors (some n)).map Colormap.name = .ok (some n)) ∧
    (∀ c : ColorRecord, colors = [c] →
      (create_colormap_json colors none).map Colormap.name = .ok c.name) ∧
    (∀ (c d : ColorRecord) (mid : List ColorRecord), colors = c :: mid ++ [d] →
      (create_colormap_json colors none).map Colormap.name =
        .ok (some (pyStr c.name ++ " " ++ pyStr d.name))) := by
  refine ⟨?_, ?_, ?_⟩
  · intro n
    rw [create_eq_some colors n hc]
    rfl
  · intro c h
    subst h
    rw [create_eq_none _ (by simp)]
    show Except.ok (deriveName [c]) = _
    rw [deriveName_one]
  · intro c d mid h
    subst h
    rw [create_eq_none _ (by simp)]
    show Except.ok (deriveName (c :: mid ++ [d])) = _
    rw [deriveName_two]

/-- Witness for C5: override "MyPalette" wins; single "Coral" is kept;
[Red, Green, Blue] derives "Red Blue". -/
theorem claim_C5_witness :
    (create_colormap_json [⟨some "Coral", none, 1, 2, 3⟩] (some "MyPalette")).map
        Colormap.name = .ok (some "MyPalette") ∧
    (create_colormap_json [⟨some "Coral", none, 1, 2, 3⟩] none).map
        Colormap.name = .ok (some "Coral") ∧
    (create_colormap_json
        [ ⟨some "Red", none, 1, 2, 3⟩, ⟨some "Green", none, 4, 5, 6⟩
        , ⟨some "Blue", none, 7, 8, 9⟩ ] none).map
        Colormap.name = .ok (some "Red Blue") :=
  ⟨(claim_C5 _ (by simp)).1 "MyPalette",
   (claim_C5 _ (by simp)).2.1 ⟨some "Coral", none, 1, 2, 3⟩ rfl,
   (claim_C5 _ (by simp)).2.2 ⟨some "Red", none, 1, 2, 3⟩ ⟨some "Blue", none, 7, 8, 9⟩
     [⟨some "Green", none, 4, 5, 6⟩] rfl⟩

/-- Counterexample to C6 as stated: a document whose only color has
r="300" (out of range 0-255) does NOT surface a parse failure; extraction
succeeds and returns the record with r = 300. -/
theorem claim_C6_counterexample :
    parse_coolors_xml (.wellFormed docOutOfRange) =
      .ok [⟨none, none, 300, 0, 0⟩] := rfl

/-- Claim C6 as amended: an out-of-range integer channel value is passed
through verbatim by extraction, with no parse failure and no coercion;
only missing or non-integer attribute values fail. -/
theorem claim_C6 (s : String) (v : Int) (hv : pyIntLit s = some v)
    (_hrange : v < 0 ∨ 255 < v) :
    parse_coolors_xml (.wellFormed
      (.mk "palette" [] [.mk "color" [("r", s), ("g", "0"), ("b", "0")] []])) =
      .ok [⟨none, none, v, 0, 0⟩] := by
  have hrec : recordOfElem (.mk "color" [("r", s), ("g", "0"), ("b", "0")] []) =
      .ok ⟨none, none, v, 0, 0⟩ := by
    unfold recordOfElem
    rw [show (Element.mk "color" [("r", s), ("g", "0"), ("b", "0")] []).get "r" =
        some s from rfl]
    rw [pyInt_good s v hv, except_ok_bind]
    rw [show (Element.mk "color" [("r", s), ("g", "0"), ("b", "0")] []).get "g" =
        some "0" from rfl]
    rw [pyInt_good "0" 0 rfl, except_ok_bind]
    rw [show (Element.mk "color" [("r", s), ("g", "0"), ("b", "0")] []).get "b" =
        some "0" from rfl]
    rw [pyInt_good "0" 0 rfl, except_ok_bind]
    rfl
  simp only [parse_coolors_xml]
  rw [show colorChildren (.mk "palette" []
      [.mk "color" [("r", s), ("g", "0"), ("b", "0")] []]) =
      [.mk "color" [("r", s), ("g", "0"), ("b", "0")] []] from rfl]
  rw [List.mapM_cons, hrec, except_ok_bind, List.mapM_nil]
  rfl

/-- Witness for the amended C6 at the concrete value 300. -/
theorem claim_C6_witness :
    parse_coolors_xml (.wellFormed
      (.mk "palette" [] [.mk "color" [("r", "300"), ("g", "0"), ("b", "0")] []])) =
      .ok [⟨none, none, 300, 0, 0⟩] :=
  claim_C6 "300" 300 rfl (Or.inr (by norm_num))

/-- Counterexample to C7 as stated: an extraction failure on a
non-integer `r` attribute and the Builder's empty-palette failure carry
the SAME exception class (ValueError), so the three error kinds are not
pairwise distinct and a caller cannot tell these two apart by kind. -/
theorem claim_C7_counterexample :
    errClass (parse_coolors_xml (.wellFormed docBadR)) = some .valueError ∧
    errClass (create_colormap_json [] none) = some .valueError := ⟨rfl, rfl⟩

/-- Claim C7 as amended: a document that is not well-formed markup
signals a ParseError (a class distinct from everything else); a missing
`r`/`g`/`b` attribute signals a TypeError; but a non-integer attribute
value and an empty palette BOTH signal a ValueError, and differ only in
their message. -/
theorem claim_C7 (d : String) :
    parse_coolors_xml (.malformed d) = .error (.parseError d) ∧
    errClass (parse_coolors_xml (.wellFormed docMissingR)) = some .typeError ∧
    errClass (parse_coolors_xml (.wellFormed docBadR)) = some .valueError ∧
    errClass (create_colormap_json [] none) = some .valueError ∧
    parse_coolors_xml (.wellFormed docBadR) ≠
      .error (.valueError "No colors provided") := by
  refine ⟨rfl, rfl, rfl, rfl, ?_⟩
  intro h
  rw [show parse_coolors_xml (.wellFormed docBadR) =
      .error (.valueError "invalid literal for int() with base 10: 'zz'") from rfl] at h
  exact absurd (PyError.valueError.inj (Except.error.inj h)) (by decide)

/-- Witness for the amended C7 at a concrete diagnostic string. -/
theorem claim_C7_witness :
    parse_coolors_xml (.malformed "syntax error: line 1, column 0") =
      .error (.parseError "syntax error: line 1, column 0") ∧
    errClass (parse_coolors_xml (.wellFormed docMissingR)) = some .typeError ∧
    errClass (parse_coolors_xml (.wellFormed docBadR)) = some .valueError ∧
    errClass (create_colormap_json [] none) = some .valueError ∧
    parse_coolors_xml (.wellFormed docBadR) ≠
      .error (.valueError "No colors provided") :=
  claim_C7 "syntax error: line 1, column 0"

/-- Counterexample to C8 as stated: documents failing on the `r`
attribute and on the `g` attribute produce the IDENTICAL error value, so
the error does not identify which attribute or element failed. -/
theorem claim_C8_counterexample :
    parse_coolors_xml (.wellFormed docBadR) = parse_coolors_xml (.wellFormed docBadG) ∧
    parse_coolors_xml (.wellFormed docBadR) =
      .error (.valueError "invalid literal for int() with base 10: 'zz'") := ⟨rfl, rfl⟩

/-- Claim C8 as amended: if any `color` child fails to parse, extraction
fails for the whole document with a ValueError or TypeError and returns
no partial sequence of records. -/
theorem claim_C8 (root : Element) (e : Element) (err0 : PyError)
    (he : e ∈ colorChildren root) (hbad : recordOfElem e = .error err0) :
    ∃ err, parse_coolors_xml (.wellFormed root) = .error err ∧
      (err.cls = .valueError ∨ err.cls = .typeError) := by
  cases hp : (colorChildren root).mapM recordOfElem with
  | ok cs =>
      obtain ⟨c, hcok⟩ := mapM_ok_mem hp e he
      rw [hbad] at hcok
      exact absurd hcok (by simp)
  | error err =>
      obtain ⟨e1, hmem, he1⟩ := mapM_error_mem hp
      refine ⟨err, ?_, recordOfElem_error_cls e1 err he1⟩
      simp only [parse_coolors_xml]
      exact hp

/-- Witness for the amended C8 on the document with r="zz". -/
theorem claim_C8_witness :
    ∃ err, parse_coolors_xml (.wellFormed docBadR) = .error err ∧
      (err.cls = .valueError ∨ err.cls = .typeError) :=
  claim_C8 docBadR elemBadR
    (.valueError "invalid literal for int() with base 10: 'zz'")
    (List.mem_singleton.mpr rfl) rfl

/-- Claim C9: a well-formed document with zero `color` children extracts
successfully to the empty sequence; the Builder is what rejects the empty
sequence, with the empty-palette ValueError and no default colormap. -/
theorem claim_C9 (root : Element) (h : colorChildren root = []) (nm : Option String) :
    parse_coolors_xml (.wellFormed root) = .ok [] ∧
    create_colormap_json [] nm = .error (.valueError "No colors provided") := by
  constructor
  · simp only [parse_coolors_xml]
    rw [h, List.mapM_nil]
    rfl
  · exact create_nil nm

/-- Witness for C9 on a document with one non-color child. -/
theorem claim_C9_witness :
    parse_coolors_xml (.wellFormed docNoColors) = .ok [] ∧
    create_colormap_json [] none = .error (.valueError "No colors provided") :=
  claim_C9 docNoColors rfl none

/-- Claim C10: with two or more colors and no override, a null first or
last name is interpolated as the literal text "None" in the derived name
(e.g. "None Blue"); with exactly one color a null name is passed through
as the null value itself, not the string "None". -/
theorem claim_C10 :
    (∀ (c d : ColorRecord) (mid : List ColorRecord), c.name = none →
      (create_colormap_json (c :: mid ++ [d]) none).map Colormap.name =
        .ok (some ("None " ++ pyStr d.name))) ∧
    (∀ (c d : ColorRecord) (mid : List ColorRecord), d.name = none →
      (create_colormap_json (c :: mid ++ [d]) none).map Colormap.name =
        .ok (some (pyStr c.name ++ " None"))) ∧
    (∀ c : ColorRecord, c.name = none →
      (create_colormap_json [c] none).map Colormap.name = .ok none) := by
  refine ⟨?_, ?_, ?_⟩
  · intro c d mid hn
    rw [create_eq_none _ (by simp)]
    show Except.ok (deriveName (c :: mid ++ [d])) = _
    rw [deriveName_two, hn]
    rfl
  · intro c d mid hn
    rw [create_eq_none _ (by simp)]
    show Except.ok (deriveName (c :: mid ++ [d])) = _
    rw [deriveName_two, hn]
    rw [String.append_assoc]
    rfl
  · intro c hn
    rw [create_eq_none _ (by simp)]
    show Except.ok (deriveName [c]) = _
    rw [deriveName_one, hn]

/-- Witness for C10: [null-name, "Blue"] derives "None Blue"; a single
null-name color keeps the null name. -/
theorem claim_C10_witness :
    (create_colormap_json
        [⟨none, none, 0, 0, 0⟩, ⟨some "Blue", none, 0, 0, 0⟩] none).map
      Colormap.name = .ok (some "None Blue") ∧
    (create_colormap_json [⟨none, none, 0, 0, 0⟩] none).map
      Colormap.name = .ok none :=
  ⟨claim_C10.1 ⟨none, none, 0, 0, 0⟩ ⟨some "Blue", none, 0, 0, 0⟩ [] rfl,
   claim_C10.2.2 ⟨none, none, 0, 0, 0⟩ rfl⟩

/-- Witness for C2 at the concrete two-color list [A, B]. -/
theorem claim_C2_witness :
    create_colormap_json
        [⟨some "A", none, 1, 2, 3⟩, ⟨some "B", none, 4, 5, 6⟩] none =
      .ok { name := some "A B"
            stops := [ { position := 0, color := ⟨1, 2, 3⟩ }
                     , { position := 1, color := ⟨4, 5, 6⟩ } ] } ∧
    (Colormap.stops
        { name := some "A B"
          stops := [ { position := 0, color := ⟨1, 2, 3⟩ }
                   , { position := 1, color := ⟨4, 5, 6⟩ } ] }).head?.map
      GradientStop.position = some 0 ∧
    (Colormap.stops
        { name := some "A B"
          stops := [ { position := 0, color := ⟨1, 2, 3⟩ }
                   , { position := 1, color := ⟨4, 5, 6⟩ } ] }).getLast?.map
      GradientStop.position = some 1 := by
  have hok : create_colormap_json
      [⟨some "A", none, 1, 2, 3⟩, ⟨some "B", none, 4, 5, 6⟩] none =
      .ok { name := some "A B"
            stops := [ { position := 0, color := ⟨1, 2, 3⟩ }
                     , { position := 1, color := ⟨4, 5, 6⟩ } ] } := by
    rw [create_eq_none _ (by simp)]
    have hd : deriveName
        [(⟨some "A", none, 1, 2, 3⟩ : ColorRecord), ⟨some "B", none, 4, 5, 6⟩] =
        some "A B" :=
      deriveName_two ⟨some "A", none, 1, 2, 3⟩ ⟨some "B", none, 4, 5, 6⟩ []
    rw [hd]
    have hs : stopsOf
        [(⟨some "A", none, 1, 2, 3⟩ : ColorRecord), ⟨some "B", none, 4, 5, 6⟩] =
        [ { position := 0, color := ⟨1, 2, 3⟩ }
        , { position := 1, color := ⟨4, 5, 6⟩ } ] := by
      unfold stopsOf
      simp only [List.enum, List.enumFrom, List.map]
      norm_num [round4, roundHalfEven]
    rw [hs]
  exact ⟨hok, ((claim_C2 _ _ hok).2.1 (by norm_num)).1, ((claim_C2 _ _ hok).2.1 (by norm_num)).2⟩

/-- Witness for C3 at the concrete two-color list with colors (7,8,9) and
(10,11,12). -/
theorem claim_C3_witness :
    create_colormap_json
        [⟨some "A", none, 7, 8, 9⟩, ⟨some "B", none, 10, 11, 12⟩] none =
      .ok { name := some "A B"
            stops := [ { position := 0, color := ⟨7, 8, 9⟩ }
                     , { position := 1, color := ⟨10, 11, 12⟩ } ] } ∧
    (Colormap.stops
        { name := some "A B"
          stops := [ { position := 0, color := ⟨7, 8, 9⟩ }
                   , { position := 1, color := ⟨10, 11, 12⟩ } ] }).length = 2 ∧
    ((Colormap.stops
        { name := some "A B"
          stops := [ { position := 0, color := ⟨7, 8, 9⟩ }
                   , { position := 1, color := ⟨10, 11, 12⟩ } ] })[0]?).map
      GradientStop.color = some ⟨7, 8, 9⟩ := by
  have hok : create_colormap_json
      [⟨some "A", none, 7, 8, 9⟩, ⟨some "B", none, 10, 11, 12⟩] none =
      .ok { name := some "A B"
            stops := [ { position := 0, color := ⟨7, 8, 9⟩ }
                     , { position := 1, color := ⟨10, 11, 12⟩ } ] } := by
    rw [create_eq_none _ (by simp)]
    have hd : deriveName
        [(⟨some "A", none, 7, 8, 9⟩ : ColorRecord), ⟨some "B", none, 10, 11, 12⟩] =
        some "A B" :=
      deriveName_two ⟨some "A", none, 7, 8, 9⟩ ⟨some "B", none, 10, 11, 12⟩ []
    rw [hd]
    have hs : stopsOf
        [(⟨some "A", none, 7, 8, 9⟩ : ColorRecord), ⟨some "B", none, 10, 11, 12⟩] =
        [ { position := 0, color := ⟨7, 8, 9⟩ }
        , { position := 1, color := ⟨10, 11, 12⟩ } ] := by
      unfold stopsOf
      simp only [List.enum, List.enumFrom, List.map]
      norm_num [round4, roundHalfEven]
    rw [hs]
  exact ⟨hok, (claim_C3 _ none _ hok).1, (claim_C3 _ none _ hok).2 0 (by norm_num)⟩
